import Mathlib

/-!
Shallow embedding of the FlexSix shopping-cart demo (src/src/App.jsx and
src/unnamed/part_000).  The two source files define the same `ProductList`
operations (`addToCart`, `removeFromCart`, `updateProductPrice`, the
`filteredProducts` search filter and the `GET /products` effect); `App.jsx`
additionally defines `AddProductForm` with its submit handler, plus the
static/timer components (`LifecycleExample`, `PromiseExample`).

Network effects are embedded by making every handler a pure step function
from the component state and the (already-arrived) response outcome to the
next component state.  A rejected promise chain (fetch rejection or a
failing `response.json()`) is one `reject` outcome, since both land in the
same `catch` block in the source.  The HTTP requests a handler issues are
embedded separately as a `List Request`, computed from the same state the
source reads when building the request; the list is written following the
source control flow, in which each handler calls `fetch` at most once and
never re-issues a request after a failure.
-/

set_option autoImplicit false

namespace FlexSix

/-- A product record `{id, name, price}` as used throughout the sources.
Cart items have the same shape (the cart stores what `POST /cart` returns). -/
structure Product where
  id : Nat
  name : String
  price : Int
  deriving DecidableEq, Repr

/-- Lowercasing as in `str.toLowerCase()`, on the character list of the
string (`String.toLower` is exactly `map Char.toLower` on the data). -/
def lowerChars (s : String) : List Char :=
  s.data.map Char.toLower

/-- `App.jsx` lines 186-188 / `part_000` lines 168-170:
`products.filter((product) => product.name.toLowerCase().includes(search.toLowerCase()))`.
JavaScript `a.includes(b)` is contiguous-substring containment, embedded as
list infix containment on the lowercased character lists. -/
def filteredProducts (products : List Product) (search : String) : List Product :=
  products.filter (fun product => decide (lowerChars search <:+: lowerChars product.name))

/-- The `ProductList` component's state: `products`, `cart` and `search`. -/
structure ProductListState where
  products : List Product
  cart : List Product
  search : String
  deriving DecidableEq, Repr

/-- Outcome of the `POST /cart` promise chain in `addToCart`: either the
parsed JSON body of the response, or a rejection caught by the handler. -/
inductive PostCartResponse where
  | success (data : Product)
  | reject
  deriving DecidableEq, Repr

/-- Outcome of the `DELETE /cart/{id}` request in `removeFromCart`: a
response with `ok` true, a response with `ok` false, or a rejection. -/
inductive DeleteResponse where
  | ok
  | notOk
  | reject
  deriving DecidableEq, Repr

/-- Outcome of the `PUT /products/{id}` promise chain in
`updateProductPrice`: the parsed JSON body, or a rejection. -/
inductive PutResponse where
  | success (data : Product)
  | reject
  deriving DecidableEq, Repr

/-- Outcome of the `GET /products` promise chain in the fetch effect. -/
inductive GetResponse where
  | success (data : List Product)
  | reject
  deriving DecidableEq, Repr

/-- Outcome of the `POST /add-product` promise chain in
`AddProductForm.handleSubmit`. -/
inductive SubmitResponse where
  | success
  | reject
  deriving DecidableEq, Repr

/-- `App.jsx` lines 135-147 / `part_000` lines 110-123: on success
`setCart([...cart, data])` appends the returned item; the `catch` block only
logs, leaving the state unchanged. -/
def addToCart (s : ProductListState) (resp : PostCartResponse) : ProductListState :=
  match resp with
  | .success data => { s with cart := s.cart ++ [data] }
  | .reject => s

/-- `App.jsx` lines 150-161 / `part_000` lines 126-139: when `response.ok`,
`setCart(cart.filter((item) => item.id !== id))`; a non-ok response or a
rejection only logs. -/
def removeFromCart (s : ProductListState) (id : Nat) (resp : DeleteResponse) : ProductListState :=
  match resp with
  | .ok => { s with cart := s.cart.filter (fun item => item.id != id) }
  | .notOk => s
  | .reject => s

/-- `App.jsx` lines 164-184 / `part_000` lines 142-165: find the product by
id, return early when absent; on a successful PUT,
`setProducts(products.map((product) => product.id === id ? { ...product, price: data.price } : product))`;
a rejection only logs. -/
def updateProductPrice (s : ProductListState) (id : Nat) (resp : PutResponse) : ProductListState :=
  match s.products.find? (fun p => p.id == id) with
  | none => s
  | some _ =>
    match resp with
    | .success data =>
      { s with products := s.products.map (fun product =>
          if product.id == id then { product with price := data.price } else product) }
    | .reject => s

/-- `App.jsx` lines 11-24 / `part_000` lines 102-107: the mount effect sets
`products` to the parsed `GET /products` body; a rejection only logs. -/
def fetchProducts (s : ProductListState) (resp : GetResponse) : ProductListState :=
  match resp with
  | .success data => { s with products := data }
  | .reject => s

/-- The body of the PUT request built in `updateProductPrice`
(`App.jsx` lines 165-174): `none` when the guard returns early, otherwise
`{ ...productToUpdate, price: productToUpdate.price + 10 }`. -/
def putRequestBody (products : List Product) (id : Nat) : Option Product :=
  (products.find? (fun p => p.id == id)).map (fun p => { p with price := p.price + 10 })

/-- The `AddProductForm` component's state (`App.jsx` lines 235-238). -/
structure AddProductFormState where
  name : String
  price : String
  message : String
  deriving DecidableEq, Repr

/-- `App.jsx` lines 240-258: the submit handler posts the form data; on
resolution it sets the message to `Product added successfully!`, on
rejection it logs and sets the message to `Error adding product`.  No other
field is written on either path. -/
def handleSubmit (s : AddProductFormState) (resp : SubmitResponse) : AddProductFormState :=
  match resp with
  | .success => { s with message := "Product added successfully!" }
  | .reject => { s with message := "Error adding product" }

/-- HTTP method of a request the program issues. -/
inductive Method where
  | GET
  | POST
  | DELETE
  | PUT
  deriving DecidableEq, Repr

/-- An HTTP request: method and full URL. -/
structure Request where
  method : Method
  url : String
  deriving DecidableEq, Repr

/-- The placeholder host every URL in the sources starts with. -/
def apiBase : String := "https://api.example.com"

/-- Whole-app state: the `ProductList` state, the `AddProductForm` state,
`LifecycleExample`'s `data` and `PromiseExample`'s `status`
(`App.jsx` lines 74-94, 296-314). -/
structure AppState where
  productList : ProductListState
  form : AddProductFormState
  lifecycleData : Option String
  promiseStatus : String
  deriving DecidableEq, Repr

/-- One event of the app: a `ProductList` handler invocation carrying its
response outcome, a controlled-input update, the form submit, or one of the
timer callbacks of `LifecycleExample` / `PromiseExample`. -/
inductive AppOp where
  | fetchProducts (resp : GetResponse)
  | addToCart (product : Product) (resp : PostCartResponse)
  | removeFromCart (id : Nat) (resp : DeleteResponse)
  | updateProductPrice (id : Nat) (resp : PutResponse)
  | setSearch (q : String)
  | setFormName (v : String)
  | setFormPrice (v : String)
  | submit (resp : SubmitResponse)
  | lifecycleTimeout
  | promiseWaitStart
  | promiseWaitDone

/-- The whole-app step: each event updates exactly the component-local state
its source handler writes. -/
def appStep (s : AppState) : AppOp → AppState
  | .fetchProducts resp => { s with productList := fetchProducts s.productList resp }
  | .addToCart _ resp => { s with productList := addToCart s.productList resp }
  | .removeFromCart id resp => { s with productList := removeFromCart s.productList id resp }
  | .updateProductPrice id resp =>
      { s with productList := updateProductPrice s.productList id resp }
  | .setSearch q => { s with productList := { s.productList with search := q } }
  | .setFormName v => { s with form := { s.form with name := v } }
  | .setFormPrice v => { s with form := { s.form with price := v } }
  | .submit resp => { s with form := handleSubmit s.form resp }
  | .lifecycleTimeout => { s with lifecycleData := some "Hello, World!" }
  | .promiseWaitStart => { s with promiseStatus := "Waiting for 2 seconds..." }
  | .promiseWaitDone => { s with promiseStatus := "2 seconds passed!" }

/-- The HTTP requests an event issues, read off the source control flow:
each networked handler calls `fetch` exactly once with a fixed method and
URL (`updateProductPrice` not at all when its guard returns early), before
the response outcome exists; the non-networked events issue none. -/
def requestsOf (s : AppState) : AppOp → List Request
  | .fetchProducts _ => [⟨.GET, apiBase ++ "/products"⟩]
  | .addToCart _ _ => [⟨.POST, apiBase ++ "/cart"⟩]
  | .removeFromCart id _ => [⟨.DELETE, apiBase ++ "/cart/" ++ toString id⟩]
  | .updateProductPrice id _ =>
      match s.productList.products.find? (fun p => p.id == id) with
      | none => []
      | some _ => [⟨.PUT, apiBase ++ "/products/" ++ toString id⟩]
  | .submit _ => [⟨.POST, apiBase ++ "/add-product"⟩]
  | .setSearch _ => []
  | .setFormName _ => []
  | .setFormPrice _ => []
  | .lifecycleTimeout => []
  | .promiseWaitStart => []
  | .promiseWaitDone => []

/-- The five placeholder endpoints named by the spec, with their methods. -/
def isSpecEndpoint (r : Request) : Prop :=
  (r.method = .GET ∧ r.url = apiBase ++ "/products") ∨
  (r.method = .POST ∧ r.url = apiBase ++ "/cart") ∨
  (∃ id : Nat, r.method = .DELETE ∧ r.url = apiBase ++ "/cart/" ++ toString id) ∨
  (∃ id : Nat, r.method = .PUT ∧ r.url = apiBase ++ "/products/" ++ toString id) ∨
  (r.method = .POST ∧ r.url = apiBase ++ "/add-product")

/-- Sample state used by the concrete witnesses below. -/
def sampleState : ProductListState :=
  ⟨[⟨1, "Widget", 5⟩, ⟨2, "Gadget", 7⟩], [], ""⟩

/-- Sample whole-app state used by the concrete witnesses below. -/
def sampleApp : AppState :=
  ⟨sampleState, ⟨"", "", ""⟩, none, "Waiting..."⟩

/-- Mapping a function over a list relates the list pointwise to its image. -/
theorem forall2_map_self {α : Type} (f : α → α) (R : α → α → Prop) (l : List α)
    (h : ∀ a ∈ l, R a (f a)) : List.Forall₂ R l (l.map f) := by
  induction l with
  | nil => exact List.Forall₂.nil
  | cons a t ih =>
    exact List.Forall₂.cons (h a (List.mem_cons_self a t))
      (ih fun x hx => h x (List.mem_cons_of_mem a hx))

/-- When the ids of a list of products are pairwise distinct, `find?` on a
member's id returns that member. -/
theorem find_eq_of_mem_nodup (l : List Product) (p : Product)
    (hmem : p ∈ l) (hnodup : (l.map Product.id).Nodup) :
    l.find? (fun q => q.id == p.id) = some p := by
  induction l with
  | nil => cases hmem
  | cons a t ih =>
    rw [List.map_cons, List.nodup_cons] at hnodup
    rcases List.mem_cons.mp hmem with h | h
    · subst h
      simp [List.find?_cons]
    · by_cases hid : a.id = p.id
      · exact absurd (hid ▸ List.mem_map_of_mem Product.id h) hnodup.1
      · rw [List.find?_cons]
        have : (a.id == p.id) = false := by simp [hid]
        rw [this]
        exact ih h hnodup.2

/-- Claim C1: the displayed product list is the input list filtered by a
case-insensitive substring match — a product is displayed iff the lowercased
search string is a substring of its lowercased name — and the displayed list
keeps the input order. -/
theorem C1_search_filter (products : List Product) (search : String) (p : Product) :
    (p ∈ filteredProducts products search ↔
      p ∈ products ∧ lowerChars search <:+: lowerChars p.name) ∧
    List.Sublist (filteredProducts products search) products := by
  constructor
  · simp [filteredProducts, List.mem_filter]
  · exact List.filter_sublist products

/-- Claim C9: the empty search string is an identity for the product
filter. -/
theorem C9_empty_search_identity (products : List Product) :
    filteredProducts products "" = products := by
  apply List.filter_eq_self.mpr
  intro p _
  have h : lowerChars "" <:+: lowerChars p.name := ⟨[], lowerChars p.name, by simp [lowerChars]⟩
  simpa using h

/-- Claim C2: a successful `addToCart` appends exactly the returned item to
the end of the cart (products untouched), and a `removeFromCart` whose
DELETE response is ok keeps exactly the cart items whose id differs from the
given id, in their original order (products untouched). -/
theorem C2_cart_add_remove (s : ProductListState) (data : Product) (id : Nat) :
    (addToCart s (.success data)).cart = s.cart ++ [data] ∧
    (addToCart s (.success data)).products = s.products ∧
    (∀ item : Product, item ∈ (removeFromCart s id .ok).cart ↔ item ∈ s.cart ∧ item.id ≠ id) ∧
    (removeFromCart s id .ok).cart = s.cart.filter (fun item => item.id != id) ∧
    List.Sublist (removeFromCart s id .ok).cart s.cart ∧
    (removeFromCart s id .ok).products = s.products := by
  refine ⟨rfl, rfl, ?_, rfl, List.filter_sublist s.cart, rfl⟩
  intro item
  simp [removeFromCart, List.mem_filter]

/-- Claim C4: a rejected request leaves the `ProductList` state (products,
cart and search alike) exactly as it was, for each of `addToCart`,
`removeFromCart` and `updateProductPrice`. -/
theorem C4_failure_atomic (s : ProductListState) (idr idu : Nat) :
    addToCart s .reject = s ∧
    removeFromCart s idr .reject = s ∧
    updateProductPrice s idu .reject = s := by
  refine ⟨rfl, rfl, ?_⟩
  unfold updateProductPrice
  cases s.products.find? (fun q => q.id == idu) <;> rfl

/-- Claim C3: for an id present in the products list, a successful
`updateProductPrice` leaves cart and search untouched and relates the old
and new products lists pointwise — every product keeps its id and name, the
matching product's price becomes the server's returned price, and every
non-matching product is unchanged. -/
theorem C3_update_price_frame (s : ProductListState) (id : Nat) (data : Product)
    (h : ∃ p ∈ s.products, p.id = id) :
    (updateProductPrice s id (.success data)).cart = s.cart ∧
    (updateProductPrice s id (.success data)).search = s.search ∧
    List.Forall₂ (fun p q : Product =>
        q.id = p.id ∧ q.name = p.name ∧
        (p.id = id → q.price = data.price) ∧
        (p.id ≠ id → q.price = p.price))
      s.products (updateProductPrice s id (.success data)).products := by
  obtain ⟨p, hp, hid⟩ := h
  cases hfind : s.products.find? (fun q => q.id == id) with
  | none =>
    rw [List.find?_eq_none] at hfind
    exact absurd (beq_iff_eq.mpr hid) (by simpa using hfind p hp)
  | some q =>
    unfold updateProductPrice
    rw [hfind]
    refine ⟨rfl, rfl, forall2_map_self _ _ _ ?_⟩
    intro x _
    by_cases hxid : x.id = id <;> simp [hxid]

/-- Witness for C3 at a concrete state: id 1 is present in `sampleState`. -/
theorem C3_update_price_frame_witness :
    (updateProductPrice sampleState 1 (.success ⟨1, "Widget", 42⟩)).cart = sampleState.cart :=
  (C3_update_price_frame sampleState 1 ⟨1, "Widget", 42⟩
    ⟨⟨1, "Widget", 5⟩, List.Mem.head _, rfl⟩).1

/-- Claim C8: for an id absent from the products list, `updateProductPrice`
is a no-op for every response outcome — the component state is unchanged,
the whole-app step is the identity, and no HTTP request is issued. -/
theorem C8_absent_id_noop (a : AppState) (id : Nat) (resp : PutResponse)
    (h : ∀ p ∈ a.productList.products, p.id ≠ id) :
    updateProductPrice a.productList id resp = a.productList ∧
    appStep a (.updateProductPrice id resp) = a ∧
    requestsOf a (.updateProductPrice id resp) = [] := by
  have hfind : a.productList.products.find? (fun p => p.id == id) = none := by
    rw [List.find?_eq_none]
    intro p hp
    simp [h p hp]
  have h1 : updateProductPrice a.productList id resp = a.productList := by
    unfold updateProductPrice
    rw [hfind]
  refine ⟨h1, ?_, ?_⟩
  · show { a with productList := updateProductPrice a.productList id resp } = a
    rw [h1]
  · simp only [requestsOf]
    rw [hfind]

/-- Witness for C8 at a concrete state: id 3 is absent from `sampleApp`. -/
theorem C8_absent_id_noop_witness :
    appStep sampleApp (.updateProductPrice 3 .reject) = sampleApp :=
  (C8_absent_id_noop sampleApp 3 .reject (by decide)).2.1

/-- Claim C10: for a product in a duplicate-free products list, the body of
the PUT request built by `updateProductPrice` on its id has the same id and
name and a price exactly 10 greater than the product's current price. -/
theorem C10_put_body_price (products : List Product) (p : Product)
    (hmem : p ∈ products) (hnodup : (products.map Product.id).Nodup) :
    ∃ body, putRequestBody products p.id = some body ∧
      body.id = p.id ∧ body.name = p.name ∧ body.price = p.price + 10 := by
  have hfind := find_eq_of_mem_nodup products p hmem hnodup
  exact ⟨{ p with price := p.price + 10 }, by rw [putRequestBody, hfind]; rfl, rfl, rfl, rfl⟩

/-- Witness for C10 at a concrete products list. -/
theorem C10_put_body_price_witness :
    ∃ body, putRequestBody sampleState.products 2 = some body ∧
      body.id = 2 ∧ body.name = "Gadget" ∧ body.price = 17 :=
  C10_put_body_price sampleState.products ⟨2, "Gadget", 7⟩
    (List.Mem.tail _ (List.Mem.head _)) (by decide)

/-- Claim C6: every HTTP request the program issues targets one of the five
placeholder endpoints with the stated method, and each of the five is issued
by some operation. -/
theorem C6_five_endpoints :
    (∀ (s : AppState) (op : AppOp) (r : Request), r ∈ requestsOf s op → isSpecEndpoint r) ∧
    (∃ s op, (⟨.GET, apiBase ++ "/products"⟩ : Request) ∈ requestsOf s op) ∧
    (∃ s op, (⟨.POST, apiBase ++ "/cart"⟩ : Request) ∈ requestsOf s op) ∧
    (∃ (s : AppState) (op : AppOp) (id : Nat),
      (⟨.DELETE, apiBase ++ "/cart/" ++ toString id⟩ : Request) ∈ requestsOf s op) ∧
    (∃ (s : AppState) (op : AppOp) (id : Nat),
      (⟨.PUT, apiBase ++ "/products/" ++ toString id⟩ : Request) ∈ requestsOf s op) ∧
    (∃ s op, (⟨.POST, apiBase ++ "/add-product"⟩ : Request) ∈ requestsOf s op) := by
  refine ⟨?_, ⟨sampleApp, .fetchProducts .reject, List.Mem.head _⟩,
    ⟨sampleApp, .addToCart ⟨1, "Widget", 5⟩ .reject, List.Mem.head _⟩,
    ⟨sampleApp, .removeFromCart 1 .reject, 1, List.Mem.head _⟩,
    ⟨sampleApp, .updateProductPrice 1 .reject, 1, ?_⟩,
    ⟨sampleApp, .submit .reject, List.Mem.head _⟩⟩
  · intro s op r h
    cases op with
    | fetchProducts resp =>
      rw [List.mem_singleton.mp h]
      exact Or.inl ⟨rfl, rfl⟩
    | addToCart p resp =>
      rw [List.mem_singleton.mp h]
      exact Or.inr (Or.inl ⟨rfl, rfl⟩)
    | removeFromCart i resp =>
      rw [List.mem_singleton.mp h]
      exact Or.inr (Or.inr (Or.inl ⟨i, rfl, rfl⟩))
    | updateProductPrice i resp =>
      simp only [requestsOf] at h
      cases hf : s.productList.products.find? (fun p => p.id == i) with
      | none => rw [hf] at h; cases h
      | some q =>
        rw [hf] at h
        rw [List.mem_singleton.mp h]
        exact Or.inr (Or.inr (Or.inr (Or.inl ⟨i, rfl, rfl⟩)))
    | submit resp =>
      rw [List.mem_singleton.mp h]
      exact Or.inr (Or.inr (Or.inr (Or.inr ⟨rfl, rfl⟩)))
    | setSearch q => cases h
    | setFormName v => cases h
    | setFormPrice v => cases h
    | lifecycleTimeout => cases h
    | promiseWaitStart => cases h
    | promiseWaitDone => cases h
  · show (⟨.PUT, apiBase ++ "/products/" ++ toString 1⟩ : Request) ∈
      requestsOf sampleApp (.updateProductPrice 1 .reject)
    simp [requestsOf, sampleApp, sampleState]

/-- Witness for C6 at a concrete request of the program. -/
theorem C6_five_endpoints_witness :
    isSpecEndpoint ⟨.GET, apiBase ++ "/products"⟩ :=
  C6_five_endpoints.1 sampleApp (.fetchProducts .reject) _ (List.Mem.head _)

/-- Claim C7: every operation of the app is single-shot — each invocation
issues at most one HTTP request, and the requests an invocation issues do
not depend on the response outcome (so a failed request is never
re-issued). -/
theorem C7_single_shot (a : AppState) (op : AppOp) :
    (requestsOf a op).length ≤ 1 ∧
    (∀ r r', requestsOf a (.fetchProducts r) = requestsOf a (.fetchProducts r')) ∧
    (∀ p r r', requestsOf a (.addToCart p r) = requestsOf a (.addToCart p r')) ∧
    (∀ i r r', requestsOf a (.removeFromCart i r) = requestsOf a (.removeFromCart i r')) ∧
    (∀ i r r', requestsOf a (.updateProductPrice i r) = requestsOf a (.updateProductPrice i r')) ∧
    (∀ r r', requestsOf a (.submit r) = requestsOf a (.submit r')) := by
  refine ⟨?_, fun _ _ => rfl, fun _ _ _ => rfl, fun _ _ _ => rfl, fun _ _ _ => rfl,
    fun _ _ => rfl⟩
  cases op <;> first
    | exact Nat.le_refl 1
    | exact Nat.zero_le 1
    | (rename_i i r
       simp only [requestsOf]
       cases a.productList.products.find? (fun p => p.id == i) <;> simp)

/-- Claim C5: the submit handler sets the message to the success string iff
the POST resolves and to the error string iff it rejects; on rejection the
name and price fields are unchanged; and no operation other than the submit
ever changes the form's message. -/
theorem C5_submit_message (s : AddProductFormState) (resp : SubmitResponse) :
    ((handleSubmit s resp).message = "Product added successfully!" ↔ resp = .success) ∧
    ((handleSubmit s resp).message = "Error adding product" ↔ resp = .reject) ∧
    (handleSubmit s .reject).name = s.name ∧
    (handleSubmit s .reject).price = s.price ∧
    (∀ (a : AppState) (op : AppOp), (∀ r, op ≠ .submit r) →
      (appStep a op).form.message = a.form.message) ∧
    (∀ a : AppState,
      (appStep a .lifecycleTimeout).lifecycleData = some "Hello, World!" ∧
      (appStep a .promiseWaitStart).promiseStatus = "Waiting for 2 seconds..." ∧
      (appStep a .promiseWaitDone).promiseStatus = "2 seconds passed!") := by
  refine ⟨?_, ?_, rfl, rfl, ?_, fun a => ⟨rfl, rfl, rfl⟩⟩
  · cases resp <;> simp [handleSubmit]
  · cases resp <;> simp [handleSubmit]
  · intro a op hop
    cases op <;> first
      | rfl
      | exact absurd rfl (hop _)

/-- Witness for C5 at concrete inputs: a rejected submit keeps the name
field, and a non-submit operation keeps the message. -/
theorem C5_submit_message_witness :
    (handleSubmit ⟨"n", "1", ""⟩ .reject).name = "n" ∧
    (appStep sampleApp .lifecycleTimeout).form.message = sampleApp.form.message :=
  ⟨(C5_submit_message ⟨"n", "1", ""⟩ .reject).2.2.1,
   (C5_submit_message ⟨"n", "1", ""⟩ .reject).2.2.2.2.1 sampleApp .lifecycleTimeout
     (fun _ => by simp)⟩

end FlexSix
